import Mathlib

/-!
Verification of the tactical-card-battle signaling server.

The definitions below are a shallow embedding of the server's JavaScript
source: the in-memory `Map`s become association lists, socket ids and user
ids become `Nat`, game ids and session tokens become `String`, and each
socket.io / HTTP handler becomes a pure step function
`ServerState → inputs → ServerState × List Event`.  JavaScript truthiness
checks on strings and numbers (`if (!gameId)`, `if (rec.expiresAt && ...)`,
`if (opponentInfo.userId && ...)`) are modelled explicitly by comparing with
the falsy values `""` and `0`.
-/

set_option maxHeartbeats 1000000

namespace TCB

/-! ## Association-list maps (modelling the JavaScript `Map` objects) -/

/-- A finite map, as an association list.  `Map.set` replaces like JS `Map.set`. -/
abbrev Map (α β : Type) := List (α × β)

def mlookup {α β : Type} [DecidableEq α] : Map α β → α → Option β
  | [], _ => none
  | (k, v) :: rest, a => if k = a then some v else mlookup rest a

def minsert {α β : Type} [DecidableEq α] : Map α β → α → β → Map α β
  | [], a, b => [(a, b)]
  | (k, v) :: rest, a, b => if k = a then (a, b) :: rest else (k, v) :: minsert rest a b

def merase {α β : Type} [DecidableEq α] : Map α β → α → Map α β
  | [], _ => []
  | (k, v) :: rest, a => if k = a then merase rest a else (k, v) :: merase rest a

/-! ## Data model

Mirrors the records kept by the server: one `PlayerInfo` per live socket
(`playerSessions`), one `GameSession` per active game (`activeGames`),
claims awaiting consensus (`pendingResults`), registered users, login
sessions and the two ranking maps. -/

/-- An entry of `gameSession.players` (see the `requestMatch` handler). -/
structure Player where
  id : Nat
  name : String
  isHost : Bool
  isGuest : Bool
  deriving Repr, DecidableEq

/-- `activeGames` value: `{id, players, createdAt, lastActivity}`. -/
structure GameSession where
  id : String
  players : List Player
  createdAt : Nat
  lastActivity : Nat
  deriving Repr, DecidableEq

/-- `playerSessions` value (the `playerInfo` closure object). -/
structure PlayerInfo where
  id : Nat
  name : String
  isWaiting : Bool
  gameId : Option String
  opponent : Option Nat
  isGuest : Bool
  userId : Option Nat
  deriving Repr, DecidableEq

/-- A registered account, restricted to the trophy fields the core mutates. -/
structure User where
  mockTrophy : Int
  formalTrophy : Int
  deriving Repr, DecidableEq

/-- A login-session store value: either the legacy bare userId number or the
current `{userId, expiresAt, lastUsedAt}` record. -/
inductive SessRec where
  | legacy (userId : Nat)
  | record (userId : Nat) (expiresAt : Nat) (lastUsedAt : Nat)
  deriving Repr, DecidableEq

/-- The whole in-memory state of the server. -/
structure ServerState where
  live : List Nat
  playerSessions : Map Nat PlayerInfo
  waitingPlayers : List Nat
  activeGames : Map String GameSession
  gameStates : Map String (Option Nat)
  pendingResults : Map String (Map Nat Nat)
  users : Map Nat User
  sessions : Map String SessRec
  rankingsMock : Map Nat Int
  rankingsFormal : Map Nat Int
  deriving Repr, DecidableEq

/-- Everything the server emits back over the socket, as observable events. -/
inductive Event where
  | relayed (kind : String) (toConn fromConn : Nat)
  | gameOverNotify (toConn fromConn winner : Nat)
  | serverError (toConn : Nat) (context : String)
  | errorCompat (toConn : Nat) (context : String)
  | opponentDisconnected (toConn : Nat) (gameId : String)
      (disconnectedPlayerName : String) (isDisconnectedAsLoser : Bool)
  deriving Repr, DecidableEq

/-! ## utils/game.js -/

/-- `getGameIdOf`: `info ? info.gameId : null`. -/
def getGameIdOf (playerSessions : Map Nat PlayerInfo) (socketId : Nat) : Option String :=
  match mlookup playerSessions socketId with
  | none => none
  | some info => info.gameId

/-- `getOpponentSocketId`: the first player of the game whose id differs. -/
def getOpponentSocketId (activeGames : Map String GameSession) (gameId : String)
    (socketId : Nat) : Option Nat :=
  match mlookup activeGames gameId with
  | none => none
  | some gameSession =>
    match gameSession.players.find? (fun p => p.id != socketId) with
    | none => none
    | some opponent => some opponent.id

/-- `arePlayersInSameGame`: both sockets have a (truthy) gameId, the two ids
are equal, and that game is in `activeGames`. -/
def arePlayersInSameGame (playerSessions : Map Nat PlayerInfo)
    (activeGames : Map String GameSession) (aSocketId bSocketId : Nat) : Bool :=
  match getGameIdOf playerSessions aSocketId with
  | none => false
  | some aGame =>
    if aGame = "" then false
    else
      match getGameIdOf playerSessions bSocketId with
      | none => false
      | some bGame =>
        if bGame = "" then false
        else aGame = bGame && (mlookup activeGames aGame).isSome

/-! ## Server-side helpers (server.js / part_001) -/

/-- JS truthiness of an optional number (`null` and `0` are falsy). -/
def truthyNat : Option Nat → Bool
  | none => false
  | some n => n != 0

/-- `isPlayerConnected`: membership in `io.sockets.sockets`. -/
def isPlayerConnected (st : ServerState) (playerId : Nat) : Bool :=
  st.live.contains playerId

/-- The common relay authorization check used by every signaling/game handler:
`isPlayerConnected(target) && arePlayersInSameGame(socket.id, target)`. -/
def relayGuard (st : ServerState) (senderId targetId : Nat) : Bool :=
  isPlayerConnected st targetId &&
    arePlayersInSameGame st.playerSessions st.activeGames senderId targetId

/-- `finalizeGameResult(gameId, winnerSocketId)`: formal-duel scoring — winner
`max(0, cur+2)`, loser `max(0, cur-1)`; skipped entirely when either session
player is a guest or any of the player-info/user lookups fails. -/
def finalizeGameResult (st : ServerState) (gameId : String) (winnerSocketId : Nat) :
    ServerState :=
  match mlookup st.activeGames gameId with
  | none => st
  | some session =>
    match session.players.find? (fun p => p.id != winnerSocketId),
          session.players.find? (fun p => p.id == winnerSocketId) with
    | some loser, some winner =>
      if winner.isGuest || loser.isGuest then st
      else
        match mlookup st.playerSessions winner.id, mlookup st.playerSessions loser.id with
        | some winnerInfo, some loserInfo =>
          match winnerInfo.userId, loserInfo.userId with
          | some winnerUid, some loserUid =>
            match mlookup st.users winnerUid, mlookup st.users loserUid with
            | some winnerUser, some loserUser =>
              let winnerCurrent := winnerUser.formalTrophy
              let loserCurrent := loserUser.formalTrophy
              let winnerUpdated := max 0 (winnerCurrent + 2)
              let loserUpdated := max 0 (loserCurrent - 1)
              let users1 := minsert st.users winnerUid
                { winnerUser with formalTrophy := winnerUpdated }
              -- the two JS object writes alias when the ids coincide, so the
              -- loser write reads the map again before updating
              let users2 :=
                match mlookup users1 loserUid with
                | some lu => minsert users1 loserUid { lu with formalTrophy := loserUpdated }
                | none => users1
              { st with
                  users := users2,
                  rankingsFormal :=
                    minsert (minsert st.rankingsFormal winnerUid winnerUpdated)
                      loserUid loserUpdated }
            | _, _ => st
          | _, _ => st
        | _, _ => st
    | _, _ => st

/-! ## Signaling relay handlers -/

/-- The `gameState` handler's mirror write: `gameStates.set(playerInfo.gameId,
gameState)` guarded only by `if (playerInfo.gameId)` (the payload is stored
even when absent). -/
def storeMirrorAlways (st : ServerState) (socketId : Nat) (gameState : Option Nat) :
    ServerState :=
  match getGameIdOf st.playerSessions socketId with
  | some g => if g = "" then st else { st with gameStates := minsert st.gameStates g gameState }
  | none => st

/-- The `cardPlayed`/`turnEnd` mirror write: `if (gameState && playerInfo.gameId)`. -/
def storeMirrorIfPresent (st : ServerState) (socketId : Nat) (gameState : Option Nat) :
    ServerState :=
  match gameState with
  | none => st
  | some b => storeMirrorAlways st socketId (some b)

/-- The `offer` handler: forward on success, emit `serverError` (plus the
legacy `error` event) to the sender on rejection. -/
def offerStep (st : ServerState) (senderId targetId : Nat) : ServerState × List Event :=
  if relayGuard st senderId targetId then
    (st, [Event.relayed "offer" targetId senderId])
  else
    (st, [Event.serverError senderId "offer", Event.errorCompat senderId "offer"])

/-- The `answer` handler: forward on success, silently drop on rejection. -/
def answerStep (st : ServerState) (senderId targetId : Nat) : ServerState × List Event :=
  if relayGuard st senderId targetId then
    (st, [Event.relayed "answer" targetId senderId])
  else (st, [])

/-- The `iceCandidate` handler: forward on success, silently drop on rejection. -/
def iceCandidateStep (st : ServerState) (senderId targetId : Nat) : ServerState × List Event :=
  if relayGuard st senderId targetId then
    (st, [Event.relayed "iceCandidate" targetId senderId])
  else (st, [])

/-- The `gameState` handler: store the snapshot and forward on success. -/
def gameStateStep (st : ServerState) (senderId targetId : Nat) (gameState : Option Nat) :
    ServerState × List Event :=
  if relayGuard st senderId targetId then
    (storeMirrorAlways st senderId gameState, [Event.relayed "gameState" targetId senderId])
  else (st, [])

/-- The `cardPlayed` handler. -/
def cardPlayedStep (st : ServerState) (senderId targetId : Nat) (gameState : Option Nat) :
    ServerState × List Event :=
  if relayGuard st senderId targetId then
    (storeMirrorIfPresent st senderId gameState, [Event.relayed "cardPlayed" targetId senderId])
  else (st, [])

/-- The `turnEnd` handler. -/
def turnEndStep (st : ServerState) (senderId targetId : Nat) (gameState : Option Nat) :
    ServerState × List Event :=
  if relayGuard st senderId targetId then
    (storeMirrorIfPresent st senderId gameState, [Event.relayed "turnEnd" targetId senderId])
  else (st, [])

/-! ## Outcome consensus (`gameOver` handler) -/

/-- The `gameOver` handler: guard, mirror write, winner validation, claim
recording, and commit when the opponent already filed the same claim. -/
def gameOverStep (st : ServerState) (senderId targetId winner : Nat)
    (gameState : Option Nat) : ServerState × List Event :=
  if !relayGuard st senderId targetId then (st, [])
  else
    match getGameIdOf st.playerSessions senderId with
    | none => (st, [])
    | some gameId =>
      if gameId = "" then (st, [])
      else
        let st1 :=
          match gameState with
          | some b => { st with gameStates := minsert st.gameStates gameId (some b) }
          | none => st
        let opponentId := getOpponentSocketId st1.activeGames gameId senderId
        if !(winner == senderId || opponentId == some winner) then (st1, [])
        else
          let claims1 := minsert ((mlookup st1.pendingResults gameId).getD []) senderId winner
          let st2 := { st1 with pendingResults := minsert st1.pendingResults gameId claims1 }
          match opponentId with
          | none => (st2, [])
          | some oid =>
            match mlookup claims1 oid with
            | none => (st2, [])
            | some otherClaim =>
              if otherClaim = winner then
                let st3 := finalizeGameResult st2 gameId winner
                ({ st3 with
                    pendingResults := merase st3.pendingResults gameId,
                    activeGames := merase st3.activeGames gameId,
                    gameStates := merase st3.gameStates gameId },
                 [Event.gameOverNotify oid senderId winner,
                  Event.gameOverNotify senderId oid winner])
              else (st2, [])

/-- The exact condition under which a `gameOver` submission commits: the
submission passes the relay guard and winner validation, and after recording
the sender's claim both players' recorded claims are present and name the
same winner. -/
def commitsGameOver (st : ServerState) (senderId targetId winner : Nat) : Bool :=
  relayGuard st senderId targetId &&
    match getGameIdOf st.playerSessions senderId with
    | none => false
    | some gameId =>
      gameId != "" &&
        (let opponentId := getOpponentSocketId st.activeGames gameId senderId
         (winner == senderId || opponentId == some winner) &&
           (let claims1 := minsert ((mlookup st.pendingResults gameId).getD []) senderId winner
            match opponentId with
            | some oid => mlookup claims1 senderId == some winner
                            && mlookup claims1 oid == some winner
            | none => false))

/-! ## Disconnect handler -/

/-- The `disconnect` handler: leave the waiting set, notify a live opponent
(with `isDisconnectedAsLoser: true`), force-commit the forfeit when both
sides are authenticated accounts, and tear the game down.  `pendingResults`
is (faithfully) not cleaned up here. -/
def disconnectStep (st : ServerState) (socketId : Nat) : ServerState × List Event :=
  let stA := { st with live := st.live.filter (fun x => x != socketId),
                       waitingPlayers := st.waitingPlayers.filter (fun x => x != socketId) }
  match mlookup stA.playerSessions socketId with
  | none => ({ stA with playerSessions := merase stA.playerSessions socketId }, [])
  | some playerInfo =>
    let out : ServerState × List Event :=
      match playerInfo.gameId with
      | none => (stA, ([] : List Event))
      | some gameId =>
        if gameId = "" then (stA, [])
        else
          match mlookup stA.activeGames gameId with
          | none => (stA, [])
          | some gameSession =>
            let opponentPlayer := gameSession.players.find? (fun p => p.id != socketId)
            let disconnectedPlayer := gameSession.players.find? (fun p => p.id == socketId)
            let out1 : ServerState × List Event :=
              match opponentPlayer with
              | none => (stA, ([] : List Event))
              | some op =>
                if isPlayerConnected stA op.id then
                  let ev := Event.opponentDisconnected op.id gameId
                    (match disconnectedPlayer with
                     | some d => d.name
                     | none => "Unknown") true
                  let stC :=
                    match mlookup stA.playerSessions op.id with
                    | none => stA
                    | some opponentInfo =>
                      if truthyNat opponentInfo.userId && !opponentInfo.isGuest &&
                          truthyNat playerInfo.userId && !playerInfo.isGuest then
                        match getGameIdOf stA.playerSessions socketId with
                        | some g2 => if g2 = "" then stA else finalizeGameResult stA g2 op.id
                        | none => stA
                      else stA
                  (stC, [ev])
                else (stA, [])
            ({ out1.1 with activeGames := merase out1.1.activeGames gameId,
                           gameStates := merase out1.1.gameStates gameId }, out1.2)
    ({ out.1 with playerSessions := merase out.1.playerSessions socketId }, out.2)

/-! ## Background sweep (idle game reap) -/

/-- The idle-game part of the 30-second `setInterval` sweep: drop every
active game whose `lastActivity` is older than 300000 ms, together with its
mirrored state. -/
def reapIdleGames (st : ServerState) (now : Nat) : ServerState :=
  { st with
      activeGames := st.activeGames.filter (fun kv => !(300000 < now - kv.2.lastActivity)),
      gameStates := st.gameStates.filter (fun kv =>
        match mlookup st.activeGames kv.1 with
        | some gs => !(300000 < now - gs.lastActivity)
        | none => true) }

/-! ## utils/session.js -/

/-- `getSessionRecord`: fetch a session entry, upgrading a legacy bare-number
value to a `{userId, expiresAt, lastUsedAt}` record in the store.  The
`if (!record) return null` check also rejects the falsy legacy number 0
(a record object is always truthy), leaving the store untouched. -/
def getSessionRecord (sessions : Map String SessRec) (sessionId : String)
    (sessionTtlMs now : Nat) : Option (Nat × Nat × Nat) × Map String SessRec :=
  match mlookup sessions sessionId with
  | none => (none, sessions)
  | some (SessRec.legacy u) =>
    if u = 0 then (none, sessions)
    else
      (some (u, now + sessionTtlMs, now),
       minsert sessions sessionId (SessRec.record u (now + sessionTtlMs) now))
  | some (SessRec.record u e l) => (some (u, e, l), sessions)

/-- `getUserIdFromSession`: null for a (truthy) passed `expiresAt` — deleting
the token — otherwise the userId with sliding expiry extension. -/
def getUserIdFromSession (sessions : Map String SessRec) (sessionId : String)
    (sessionTtlMs now : Nat) : Option Nat × Map String SessRec :=
  match getSessionRecord sessions sessionId sessionTtlMs now with
  | (none, s1) => (none, s1)
  | (some (u, e, _), s1) =>
    if e ≠ 0 ∧ e < now then (none, merase s1 sessionId)
    else (some u, minsert s1 sessionId (SessRec.record u (now + sessionTtlMs) now))

/-! ## routes/ranking.js — `POST /api/update-trophies` -/

/-- The trophy-update endpoint: zod validation (`category` must be `"mock"`,
`change` an integer in `[-5, 5]`, non-empty session id), session resolution,
then `trophies.mock = max(0, old + change)` mirrored into the mock ranking.
Returns whether the update was accepted. -/
def updateTrophiesStep (st : ServerState) (sessionId category : String) (change : Int)
    (sessionTtlMs now : Nat) : ServerState × Bool :=
  if !(sessionId != "" && category == "mock" && decide (-5 ≤ change) && decide (change ≤ 5)) then
    (st, false)
  else
    let resolved := getUserIdFromSession st.sessions sessionId sessionTtlMs now
    let st1 := { st with sessions := resolved.2 }
    match resolved.1 with
    | none => (st1, false)
    | some userId =>
      match mlookup st1.users userId with
      | none => (st1, false)
      | some userData =>
        let newScore := max 0 (userData.mockTrophy + change)
        ({ st1 with
            users := minsert st1.users userId { userData with mockTrophy := newScore },
            rankingsMock := minsert st1.rankingsMock userId newScore }, true)

/-- One queued trophy-update request (its arrival time included). -/
structure TrophyReq where
  sessionId : String
  category : String
  change : Int
  now : Nat
  deriving Repr, DecidableEq

/-- A sequence of trophy-update requests applied in order. -/
def applyTrophyUpdates (sessionTtlMs : Nat) : List TrophyReq → ServerState → ServerState
  | [], st => st
  | r :: rest, st =>
    applyTrophyUpdates sessionTtlMs rest
      (updateTrophiesStep st r.sessionId r.category r.change sessionTtlMs r.now).1

/-! ## Relay dispatcher (for claims quantifying over all relayed events) -/

/-- The seven relayed socket events. -/
inductive RelayKind where
  | offer | answer | iceCandidate | gameState | cardPlayed | turnEnd | gameOver
  deriving Repr, DecidableEq

/-- Dispatch a relayed event to its handler (`winner` is only read by
`gameOver`, `gameState` only by the game-event handlers). -/
def relayStep (k : RelayKind) (st : ServerState) (senderId targetId winner : Nat)
    (gameState : Option Nat) : ServerState × List Event :=
  match k with
  | RelayKind.offer => offerStep st senderId targetId
  | RelayKind.answer => answerStep st senderId targetId
  | RelayKind.iceCandidate => iceCandidateStep st senderId targetId
  | RelayKind.gameState => gameStateStep st senderId targetId gameState
  | RelayKind.cardPlayed => cardPlayedStep st senderId targetId gameState
  | RelayKind.turnEnd => turnEndStep st senderId targetId gameState
  | RelayKind.gameOver => gameOverStep st senderId targetId winner gameState

/-- Whether an emitted event delivers a relayed payload to connection `x`
(rejection notices to the sender are not payload deliveries). -/
def Event.deliversTo : Event → Nat → Bool
  | Event.relayed _ t _, x => t == x
  | Event.gameOverNotify t _ _, x => t == x
  | Event.opponentDisconnected t _ _ _, x => t == x
  | Event.serverError _ _, _ => false
  | Event.errorCompat _ _, _ => false

/-- All mock scores stored anywhere (ranking entries and user trophy fields)
are non-negative. -/
def mockScoresNonneg (st : ServerState) : Prop :=
  (∀ p ∈ st.rankingsMock, 0 ≤ p.2) ∧ (∀ q ∈ st.users, 0 ≤ q.2.mockTrophy)

instance (st : ServerState) : Decidable (mockScoresNonneg st) := by
  unfold mockScoresNonneg
  infer_instance

/-! ## Concrete states (used by witnesses and counterexamples) -/

/-- A player-session record for socket `i` inside game `"g"`. -/
def piG (i opp uid : Nat) (guest : Bool) : PlayerInfo :=
  { id := i, name := "P", isWaiting := false, gameId := some "g",
    opponent := some opp, isGuest := guest, userId := if guest then none else some uid }

/-- A session player record. -/
def plG (i : Nat) (host guest : Bool) : Player :=
  { id := i, name := if i = 1 then "Alice" else "Bob", isHost := host, isGuest := guest }

/-- The game `"g"` between sockets 1 and 2. -/
def gameG (guest2 : Bool) : GameSession :=
  { id := "g", players := [plG 1 true false, plG 2 false guest2],
    createdAt := 0, lastActivity := 0 }

/-- Two authenticated players (users 10 and 20, formal trophies 5 and 3)
matched in game `"g"`, both connections live. -/
def stGame : ServerState :=
  { live := [1, 2],
    playerSessions := [(1, piG 1 2 10 false), (2, piG 2 1 20 false)],
    waitingPlayers := [], activeGames := [("g", gameG false)], gameStates := [],
    pendingResults := [],
    users := [(10, { mockTrophy := 0, formalTrophy := 5 }),
              (20, { mockTrophy := 0, formalTrophy := 3 })],
    sessions := [], rankingsMock := [], rankingsFormal := [] }

/-- `stGame` after player 2 already claimed that 1 won. -/
def stGameClaimed : ServerState := { stGame with pendingResults := [("g", [(2, 1)])] }

/-- `stGame` with game `"g"` already torn down (player sessions still point at
it, as the `gameOver` commit path leaves them). -/
def stGameTornDown : ServerState :=
  { stGame with activeGames := [], pendingResults := [] }

/-- Like `stGame` but player 2 is a guest. -/
def stGuestGame : ServerState :=
  { stGame with
      playerSessions := [(1, piG 1 2 10 false), (2, piG 2 1 20 true)],
      activeGames := [("g", gameG true)] }

/-- Two live connections that share no game. -/
def stNoGame : ServerState :=
  { live := [1, 2], playerSessions := [], waitingPlayers := [], activeGames := [],
    gameStates := [], pendingResults := [], users := [], sessions := [],
    rankingsMock := [], rankingsFormal := [] }

/-- A state with one login session and one user, for the trophy endpoint. -/
def stTrophy : ServerState :=
  { stNoGame with
      sessions := [("tok", SessRec.record 1 500 0)],
      users := [(1, { mockTrophy := 3, formalTrophy := 0 })],
      rankingsMock := [(1, 3)] }

/-! # Theorems -/

/-! ## Map lemmas -/

theorem mlookup_minsert_self {α β : Type} [DecidableEq α] (m : Map α β) (k : α) (v : β) :
    mlookup (minsert m k v) k = some v := by
  induction m with
  | nil => simp [minsert, mlookup]
  | cons hd tl ih =>
    obtain ⟨k0, v0⟩ := hd
    by_cases h : k0 = k <;> simp [minsert, mlookup, h, ih]

theorem mlookup_minsert_ne {α β : Type} [DecidableEq α] (m : Map α β) (k a : α) (v : β)
    (h : k ≠ a) : mlookup (minsert m k v) a = mlookup m a := by
  induction m with
  | nil => simp [minsert, mlookup, h]
  | cons hd tl ih =>
    obtain ⟨k0, v0⟩ := hd
    by_cases h0 : k0 = k
    · subst h0; simp [minsert, mlookup, h]
    · simp [minsert, mlookup, h0, ih]

theorem mlookup_merase_self {α β : Type} [DecidableEq α] (m : Map α β) (k : α) :
    mlookup (merase m k) k = none := by
  induction m with
  | nil => simp [merase, mlookup]
  | cons hd tl ih =>
    obtain ⟨k0, v0⟩ := hd
    by_cases h : k0 = k <;> simp [merase, mlookup, h, ih]

theorem mlookup_merase_ne {α β : Type} [DecidableEq α] (m : Map α β) (k a : α)
    (h : k ≠ a) : mlookup (merase m k) a = mlookup m a := by
  induction m with
  | nil => simp [merase, mlookup]
  | cons hd tl ih =>
    obtain ⟨k0, v0⟩ := hd
    by_cases h0 : k0 = k
    · subst h0; simp [merase, mlookup, h, ih]
    · simp [merase, mlookup, h0, ih]

/-! ## Helper lemmas -/

theorem arePlayersInSameGame_false_of_not_sharing (ps : Map Nat PlayerInfo)
    (ag : Map String GameSession) (s t : Nat)
    (h : ∀ g : String, ¬(getGameIdOf ps s = some g ∧ getGameIdOf ps t = some g)) :
    arePlayersInSameGame ps ag s t = false := by
  unfold arePlayersInSameGame
  cases ha : getGameIdOf ps s with
  | none => rfl
  | some ga =>
    by_cases hga : ga = ""
    · simp [hga]
    · cases hb : getGameIdOf ps t with
      | none => simp [hga]
      | some gb =>
        by_cases hgb : gb = ""
        · simp [hga, hgb]
        · simp only [if_neg hga, if_neg hgb]
          by_cases hab : ga = gb
          · exact absurd ⟨ha, hab ▸ hb⟩ (h ga)
          · simp [hab]

theorem relayGuard_true_elim (st : ServerState) (s t : Nat)
    (h : relayGuard st s t = true) :
    isPlayerConnected st t = true ∧
      arePlayersInSameGame st.playerSessions st.activeGames s t = true := by
  unfold relayGuard at h
  exact And.imp_left id (Bool.and_eq_true _ _ |>.mp h)

theorem arePlayersInSameGame_false_of_inactive (st : ServerState) (s t : Nat) (gid : String)
    (h1 : getGameIdOf st.playerSessions s = some gid)
    (h2 : mlookup st.activeGames gid = none) :
    arePlayersInSameGame st.playerSessions st.activeGames s t = false := by
  unfold arePlayersInSameGame
  rw [h1]
  by_cases hga : gid = ""
  · simp [hga]
  · cases hb : getGameIdOf st.playerSessions t with
    | none => simp [hga]
    | some gb =>
      by_cases hgb : gb = ""
      · simp [hga, hgb]
      · by_cases hab : gid = gb
        · subst hab; simp [hga, hgb, h2]
        · simp [hga, hgb, hab]

theorem gameOverStep_noop_of_inactive (st : ServerState) (s t w : Nat) (gs : Option Nat)
    (gid : String) (h1 : getGameIdOf st.playerSessions s = some gid)
    (h2 : mlookup st.activeGames gid = none) :
    gameOverStep st s t w gs = (st, []) := by
  have hsame := arePlayersInSameGame_false_of_inactive st s t gid h1 h2
  have hguard : relayGuard st s t = false := by
    unfold relayGuard
    rw [hsame]
    simp
  unfold gameOverStep
  rw [hguard]
  rfl

theorem commitsGameOver_gid (st : ServerState) (s t w : Nat)
    (h : commitsGameOver st s t w = true) :
    ∃ gid, getGameIdOf st.playerSessions s = some gid := by
  unfold commitsGameOver at h
  cases hgid : getGameIdOf st.playerSessions s with
  | none => rw [hgid] at h; simp at h
  | some gid => exact ⟨gid, rfl⟩

theorem gameOverStep_spec (st : ServerState) (s t w : Nat) (gs : Option Nat) :
    (commitsGameOver st s t w = false → (gameOverStep st s t w gs).2 = []) ∧
    (commitsGameOver st s t w = true →
      ∀ gid, getGameIdOf st.playerSessions s = some gid →
        mlookup (gameOverStep st s t w gs).1.activeGames gid = none ∧
        mlookup (gameOverStep st s t w gs).1.pendingResults gid = none ∧
        ∃ oid, getOpponentSocketId st.activeGames gid s = some oid ∧
          (gameOverStep st s t w gs).2 =
            [Event.gameOverNotify oid s w, Event.gameOverNotify s oid w]) := by
  unfold gameOverStep commitsGameOver
  cases hguard : relayGuard st s t with
  | false => simp
  | true =>
    cases hgid : getGameIdOf st.playerSessions s with
    | none => simp
    | some gid0 =>
      dsimp only
      by_cases hne : gid0 = ""
      · simp [hne]
      · simp only [if_neg hne, bne_iff_ne, ne_eq, hne, not_false_eq_true, decide_True,
          Bool.true_and]
        cases gs with
        | none =>
          dsimp only
          cases hopp : getOpponentSocketId st.activeGames gid0 s with
          | none =>
            dsimp only
            refine ⟨fun _ => ?_, fun hcom => ?_⟩
            · repeat' split
              all_goals rfl
            · simp at hcom
          | some oid =>
            dsimp only
            by_cases hwv : (w == s || (some oid : Option Nat) == some w) = true
            · simp only [hwv, Bool.not_true, Bool.false_eq_true, if_false]
              cases hcl : mlookup (minsert ((mlookup st.pendingResults gid0).getD [])
                  s w) oid with
              | none => simp
              | some oc =>
                dsimp only
                by_cases hoc : oc = w
                · subst hoc
                  simp only [eq_self_iff_true, if_true, beq_self_eq_true, Bool.and_true,
                    mlookup_minsert_self, Bool.true_and]
                  refine ⟨fun hfalse => by simp_all, fun _ gid hgid2 => ?_⟩
                  injection hgid2 with hgid3
                  subst hgid3
                  exact ⟨mlookup_merase_self _ _, mlookup_merase_self _ _,
                    oid, hopp, rfl⟩
                · simp [hoc]
            · have hwvf : (w == s || (some oid : Option Nat) == some w) = false := by
                rwa [Bool.not_eq_true] at hwv
              obtain ⟨hws, how⟩ : ¬w = s ∧ ¬oid = w := by
                constructor <;> intro hcontra <;> subst hcontra <;> simp at hwvf
              simp [hws, how]
        | some b =>
          dsimp only
          cases hopp : getOpponentSocketId st.activeGames gid0 s with
          | none =>
            dsimp only
            refine ⟨fun _ => ?_, fun hcom => ?_⟩
            · repeat' split
              all_goals rfl
            · simp at hcom
          | some oid =>
            dsimp only
            by_cases hwv : (w == s || (some oid : Option Nat) == some w) = true
            · simp only [hwv, Bool.not_true, Bool.false_eq_true, if_false]
              cases hcl : mlookup (minsert ((mlookup st.pendingResults gid0).getD [])
                  s w) oid with
              | none => simp
              | some oc =>
                dsimp only
                by_cases hoc : oc = w
                · subst hoc
                  simp only [eq_self_iff_true, if_true, beq_self_eq_true, Bool.and_true,
                    mlookup_minsert_self, Bool.true_and]
                  refine ⟨fun hfalse => by simp_all, fun _ gid hgid2 => ?_⟩
                  injection hgid2 with hgid3
                  subst hgid3
                  exact ⟨mlookup_merase_self _ _, mlookup_merase_self _ _,
                    oid, hopp, rfl⟩
                · simp [hoc]
            · have hwvf : (w == s || (some oid : Option Nat) == some w) = false := by
                rwa [Bool.not_eq_true] at hwv
              obtain ⟨hws, how⟩ : ¬w = s ∧ ¬oid = w := by
                constructor <;> intro hcontra <;> subst hcontra <;> simp at hwvf
              simp [hws, how]

/-! ## Claim theorems -/

/-- C10: `arePlayersInSameGame` is symmetric in its two socket arguments for
every state of the player-session and active-game maps.  The embedding is a
pure function of the two maps, so evaluating it mutates no state. -/
theorem C10_arePlayersInSameGame_symm (playerSessions : Map Nat PlayerInfo)
    (activeGames : Map String GameSession) (a b : Nat) :
    arePlayersInSameGame playerSessions activeGames a b =
      arePlayersInSameGame playerSessions activeGames b a := by
  unfold arePlayersInSameGame
  cases ha : getGameIdOf playerSessions a with
  | none =>
    cases hb : getGameIdOf playerSessions b with
    | none => rfl
    | some gb =>
      by_cases hgb : gb = "" <;> simp [hgb]
  | some ga =>
    cases hb : getGameIdOf playerSessions b with
    | none => by_cases hga : ga = "" <;> simp [hga]
    | some gb =>
      by_cases hga : ga = ""
      · by_cases hgb : gb = "" <;> simp [hga, hgb]
      · by_cases hgb : gb = ""
        · simp [hga, hgb]
        · simp only [if_neg hga, if_neg hgb]
          by_cases hab : ga = gb
          · subst hab; simp
          · simp [hab, Ne.symm hab]

/-- C3: for every relayed event (offer, answer, iceCandidate, gameState,
cardPlayed, turnEnd, gameOver) and every pair of connections, a payload is
delivered to the target only if the target is live and sender and target
belong to the same active game session; and a message between connections
not sharing a gameId is never delivered to the target. -/
theorem C3_relay_only_same_game (k : RelayKind) (st : ServerState) (s t w : Nat)
    (gs : Option Nat) :
    (∀ e ∈ (relayStep k st s t w gs).2, e.deliversTo t = true →
        isPlayerConnected st t = true ∧
        arePlayersInSameGame st.playerSessions st.activeGames s t = true) ∧
    ((∀ g : String, ¬(getGameIdOf st.playerSessions s = some g ∧
        getGameIdOf st.playerSessions t = some g)) →
      ∀ e ∈ (relayStep k st s t w gs).2, e.deliversTo t = false) := by
  have main : ∀ e ∈ (relayStep k st s t w gs).2, e.deliversTo t = true →
      relayGuard st s t = true := by
    intro e he hd
    cases hg : relayGuard st s t with
    | true => rfl
    | false =>
      exfalso
      cases k with
      | offer =>
        simp only [relayStep, offerStep, hg, Bool.false_eq_true, if_false, List.mem_cons,
          List.not_mem_nil, or_false] at he
        rcases he with h | h <;> rw [h] at hd <;> simp [Event.deliversTo] at hd
      | answer => simp [relayStep, answerStep, hg] at he
      | iceCandidate => simp [relayStep, iceCandidateStep, hg] at he
      | gameState => simp [relayStep, gameStateStep, hg] at he
      | cardPlayed => simp [relayStep, cardPlayedStep, hg] at he
      | turnEnd => simp [relayStep, turnEndStep, hg] at he
      | gameOver => simp [relayStep, gameOverStep, hg] at he
  constructor
  · intro e he hd
    exact relayGuard_true_elim st s t (main e he hd)
  · intro hshare e he
    have hsame := arePlayersInSameGame_false_of_not_sharing st.playerSessions st.activeGames
      s t hshare
    by_cases hd : e.deliversTo t = true
    · have hg := main e he hd
      unfold relayGuard at hg
      rw [hsame] at hg
      simp at hg
    · exact Bool.eq_false_iff.mpr (fun h => hd h)

/-- C3 witness: in the concrete two-player game state, an offer relayed from
connection 1 to connection 2 is delivered, and the theorem yields that the
target is live and both connections share the active game. -/
theorem C3_relay_only_same_game_witness :
    isPlayerConnected stGame 2 = true ∧
      arePlayersInSameGame stGame.playerSessions stGame.activeGames 1 2 = true :=
  (C3_relay_only_same_game RelayKind.offer stGame 1 2 0 none).1
    (Event.relayed "offer" 2 1) (by rw [show (relayStep RelayKind.offer stGame 1 2 0 none).2
      = [Event.relayed "offer" 2 1] from rfl]; exact List.mem_singleton.mpr rfl) (by rfl)

/-- C5: a gameOver report whose claimed winner is neither the reporting
connection nor its opponent is discarded silently: the pending outcome,
both ranking maps and the user store are unchanged and no event is sent. -/
theorem C5_invalid_winner_discarded (st : ServerState) (s t w : Nat) (gs : Option Nat)
    (hw : w ≠ s)
    (hopp : ∀ g : String, getGameIdOf st.playerSessions s = some g →
        getOpponentSocketId st.activeGames g s ≠ some w) :
    (gameOverStep st s t w gs).1.pendingResults = st.pendingResults ∧
    (gameOverStep st s t w gs).1.rankingsFormal = st.rankingsFormal ∧
    (gameOverStep st s t w gs).1.rankingsMock = st.rankingsMock ∧
    (gameOverStep st s t w gs).1.users = st.users ∧
    (gameOverStep st s t w gs).2 = [] := by
  unfold gameOverStep
  by_cases hg : relayGuard st s t
  · simp only [hg, Bool.not_true, Bool.false_eq_true, if_false]
    cases hgid : getGameIdOf st.playerSessions s with
    | none => simp
    | some gid =>
      by_cases hne : gid = ""
      · simp [hne]
      · have hopp2 := hopp gid hgid
        cases gs with
        | none =>
          simp only [hne, if_false]
          have : (w == s || getOpponentSocketId st.activeGames gid s == some w) = false := by
            simp [hw, hopp2]
          simp [this]
        | some b =>
          simp only [hne, if_false]
          have : (w == s ||
              getOpponentSocketId
                { st with gameStates := minsert st.gameStates gid (some b) }.activeGames
                gid s == some w) = false := by
            simp [hw, hopp2]
          simp [this]
  · simp [hg]

/-- C5 witness: in the claimed-game state, a gameOver from connection 1
naming the unrelated connection 99 as winner changes none of the pending
outcome, rankings or users and emits nothing. -/
theorem C5_invalid_winner_discarded_witness :
    (gameOverStep stGameClaimed 1 2 99 none).1.pendingResults = stGameClaimed.pendingResults ∧
    (gameOverStep stGameClaimed 1 2 99 none).1.rankingsFormal = stGameClaimed.rankingsFormal ∧
    (gameOverStep stGameClaimed 1 2 99 none).1.rankingsMock = stGameClaimed.rankingsMock ∧
    (gameOverStep stGameClaimed 1 2 99 none).1.users = stGameClaimed.users ∧
    (gameOverStep stGameClaimed 1 2 99 none).2 = [] :=
  C5_invalid_winner_discarded stGameClaimed 1 2 99 none (by decide)
    (by intro g hg1 hg2
        rw [show getGameIdOf stGameClaimed.playerSessions 1 = some "g" from rfl] at hg1
        cases hg1
        exact absurd hg2 (by decide))

/-- C6 counterexample: the answer relay from connection 1 to the live
connection 2 is rejected (the two share no game session), yet no event at
all is emitted — the rejected relay is dropped silently, contradicting the
claim that every rejected relay produces a rejection notice. -/
theorem C6_counterexample :
    relayGuard stNoGame 1 2 = false ∧ answerStep stNoGame 1 2 = (stNoGame, []) := by
  constructor
  · rfl
  · rfl

/-- C6 (amended): a rejected offer relay produces a rejection notice
(serverError plus the legacy error event) to the sender, but rejected
answer, iceCandidate, gameState, cardPlayed, turnEnd and gameOver relays
are dropped silently with the state unchanged. -/
theorem C6_rejection_notice (st : ServerState) (s t w : Nat) (gs : Option Nat)
    (h : relayGuard st s t = false) :
    offerStep st s t = (st, [Event.serverError s "offer", Event.errorCompat s "offer"]) ∧
    answerStep st s t = (st, []) ∧
    iceCandidateStep st s t = (st, []) ∧
    gameStateStep st s t gs = (st, []) ∧
    cardPlayedStep st s t gs = (st, []) ∧
    turnEndStep st s t gs = (st, []) ∧
    gameOverStep st s t w gs = (st, []) := by
  unfold offerStep answerStep iceCandidateStep gameStateStep cardPlayedStep turnEndStep
    gameOverStep
  simp [h]

/-- C6 witness: at the concrete pair of live connections sharing no game,
the amended theorem applies: the rejected offer notifies the sender and the
other six rejected relays emit nothing. -/
theorem C6_rejection_notice_witness :
    offerStep stNoGame 1 2 =
      (stNoGame, [Event.serverError 1 "offer", Event.errorCompat 1 "offer"]) ∧
    answerStep stNoGame 1 2 = (stNoGame, []) ∧
    iceCandidateStep stNoGame 1 2 = (stNoGame, []) ∧
    gameStateStep stNoGame 1 2 (some 5) = (stNoGame, []) ∧
    cardPlayedStep stNoGame 1 2 (some 5) = (stNoGame, []) ∧
    turnEndStep stNoGame 1 2 (some 5) = (stNoGame, []) ∧
    gameOverStep stNoGame 1 2 1 (some 5) = (stNoGame, []) :=
  C6_rejection_notice stNoGame 1 2 1 (some 5) (by rfl)

/-- Full specification of `finalizeGameResult`: unchanged state in the
guest case, winner `old + 2` and loser `max 0 (old - 1)` in the
authenticated case. -/
theorem finalizeGameResult_spec (st : ServerState) (gid : String) (w : Nat) :
    (∀ session loser winner,
        mlookup st.activeGames gid = some session →
        session.players.find? (fun p => p.id != w) = some loser →
        session.players.find? (fun p => p.id == w) = some winner →
        (winner.isGuest || loser.isGuest) = true →
        finalizeGameResult st gid w = st) ∧
    (∀ session loser winner wi li wu lu uw ul,
        mlookup st.activeGames gid = some session →
        session.players.find? (fun p => p.id != w) = some loser →
        session.players.find? (fun p => p.id == w) = some winner →
        winner.isGuest = false → loser.isGuest = false →
        mlookup st.playerSessions winner.id = some wi →
        mlookup st.playerSessions loser.id = some li →
        wi.userId = some wu → li.userId = some lu → wu ≠ lu →
        mlookup st.users wu = some uw → mlookup st.users lu = some ul →
        0 ≤ uw.formalTrophy →
        mlookup (finalizeGameResult st gid w).users wu =
            some { uw with formalTrophy := uw.formalTrophy + 2 } ∧
        mlookup (finalizeGameResult st gid w).users lu =
            some { ul with formalTrophy := max 0 (ul.formalTrophy - 1) } ∧
        mlookup (finalizeGameResult st gid w).rankingsFormal wu =
            some (uw.formalTrophy + 2) ∧
        mlookup (finalizeGameResult st gid w).rankingsFormal lu =
            some (max 0 (ul.formalTrophy - 1)) ∧
        (finalizeGameResult st gid w).rankingsMock = st.rankingsMock) := by
  constructor
  · intro session loser winner hag hfl hfw hguest
    unfold finalizeGameResult
    rw [hag]
    simp only [hfl, hfw]
    simp [hguest]
  · intro session loser winner wi li wu lu uw ul hag hfl hfw hgw hgl hwi hli hwu hlu hne
      huw hul hnn
    unfold finalizeGameResult
    rw [hag]
    simp only [hfl, hfw, hgw, hgl, Bool.or_self, Bool.false_eq_true, if_false, hwi, hli,
      hwu, hlu, huw, hul]
    have hmax : max 0 (uw.formalTrophy + 2) = uw.formalTrophy + 2 := by omega
    have h1 : mlookup (minsert st.users wu
        { uw with formalTrophy := max 0 (uw.formalTrophy + 2) }) lu =
        mlookup st.users lu := mlookup_minsert_ne _ _ _ _ hne
    rw [h1, hul]
    refine ⟨?_, ?_, ?_, ?_, trivial⟩
    · rw [mlookup_minsert_ne _ _ _ _ (Ne.symm hne), mlookup_minsert_self, hmax]
    · rw [mlookup_minsert_self]
    · rw [mlookup_minsert_ne _ _ _ _ (Ne.symm hne), mlookup_minsert_self, hmax]
    · rw [mlookup_minsert_self]

/-- C2: scoring of a committed outcome.  If either session player is a
guest, `finalizeGameResult` changes nothing at all; if both are
authenticated (distinct accounts, the stored winner score non-negative as
all stored scores are), the winner's formal trophy becomes `old + 2`, the
loser's `max 0 (old - 1)`, in both the user store and the formal ranking,
and the mock ranking is untouched.  Instantiated at formal trophies 5 and 3
(yielding 7 and 2) by the witness. -/
theorem C2_formal_scoring (st : ServerState) (gid : String) (w : Nat) :
    (∀ session loser winner,
        mlookup st.activeGames gid = some session →
        session.players.find? (fun p => p.id != w) = some loser →
        session.players.find? (fun p => p.id == w) = some winner →
        (winner.isGuest || loser.isGuest) = true →
        finalizeGameResult st gid w = st) ∧
    (∀ session loser winner wi li wu lu uw ul,
        mlookup st.activeGames gid = some session →
        session.players.find? (fun p => p.id != w) = some loser →
        session.players.find? (fun p => p.id == w) = some winner →
        winner.isGuest = false → loser.isGuest = false →
        mlookup st.playerSessions winner.id = some wi →
        mlookup st.playerSessions loser.id = some li →
        wi.userId = some wu → li.userId = some lu → wu ≠ lu →
        mlookup st.users wu = some uw → mlookup st.users lu = some ul →
        0 ≤ uw.formalTrophy →
        mlookup (finalizeGameResult st gid w).users wu =
            some { uw with formalTrophy := uw.formalTrophy + 2 } ∧
        mlookup (finalizeGameResult st gid w).users lu =
            some { ul with formalTrophy := max 0 (ul.formalTrophy - 1) } ∧
        mlookup (finalizeGameResult st gid w).rankingsFormal wu =
            some (uw.formalTrophy + 2) ∧
        mlookup (finalizeGameResult st gid w).rankingsFormal lu =
            some (max 0 (ul.formalTrophy - 1)) ∧
        (finalizeGameResult st gid w).rankingsMock = st.rankingsMock) :=
  finalizeGameResult_spec st gid w

/-- C2 witness: in the concrete authenticated game (formal trophies 5 and
3), committing winner 1 yields trophies 7 and 2; and in the game where
player 2 is a guest, finalization changes nothing. -/
theorem C2_formal_scoring_witness :
    (mlookup (finalizeGameResult stGame "g" 1).users 10 =
        some { mockTrophy := 0, formalTrophy := 7 } ∧
      mlookup (finalizeGameResult stGame "g" 1).users 20 =
        some { mockTrophy := 0, formalTrophy := 2 } ∧
      mlookup (finalizeGameResult stGame "g" 1).rankingsFormal 10 = some 7 ∧
      mlookup (finalizeGameResult stGame "g" 1).rankingsFormal 20 = some 2) ∧
    finalizeGameResult stGuestGame "g" 1 = stGuestGame := by
  constructor
  · have h := (C2_formal_scoring stGame "g" 1).2 (gameG false) (plG 2 false false)
      (plG 1 true false) (piG 1 2 10 false) (piG 2 1 20 false) 10 20
      { mockTrophy := 0, formalTrophy := 5 } { mockTrophy := 0, formalTrophy := 3 }
      rfl rfl rfl rfl rfl rfl rfl rfl rfl (by decide) rfl rfl (by decide)
    refine ⟨?_, ?_, ?_, ?_⟩
    · rw [h.1]; rfl
    · rw [h.2.1]; rfl
    · rw [h.2.2.1]; rfl
    · rw [h.2.2.2.1]; rfl
  · exact (C2_formal_scoring stGuestGame "g" 1).1 (gameG true) (plG 2 false true)
      (plG 1 true false) rfl rfl rfl (by decide)

/-- C8 counterexample: the token `"tok"` holds a record whose `expiresAt`
is 0, which has passed at `now = 100`; yet resolution returns account 7 and
keeps (and extends) the token, because the handler's truthiness check
(`rec.expiresAt && rec.expiresAt < Date.now()`) skips the expiry test when
`expiresAt` is the falsy number 0.  The claim quantified over every store
state is therefore false. -/
theorem C8_counterexample :
    (0 : Nat) < 100 ∧
    getUserIdFromSession [("tok", SessRec.record 7 0 0)] "tok" 1000 100 =
      (some 7, [("tok", SessRec.record 7 1100 100)]) := by
  exact ⟨by decide, by rfl⟩

/-- C8 (amended): resolving a token whose record has a nonzero (JS-truthy)
`expiresAt` that has passed returns null and removes the token; resolving
an unexpired record (including one with the falsy `expiresAt` 0) or a
nonzero legacy bare-number entry returns its account id and slides
`expiresAt` to `now + TTL`; the falsy legacy entry 0 resolves to null with
the store untouched. -/
theorem C8_sliding_expiry (sessions : Map String SessRec) (sid : String)
    (u e l ttl now : Nat) :
    (mlookup sessions sid = some (SessRec.record u e l) →
      ((e ≠ 0 ∧ e < now) →
        getUserIdFromSession sessions sid ttl now = (none, merase sessions sid)) ∧
      (¬(e ≠ 0 ∧ e < now) →
        (getUserIdFromSession sessions sid ttl now).1 = some u ∧
        mlookup (getUserIdFromSession sessions sid ttl now).2 sid =
          some (SessRec.record u (now + ttl) now))) ∧
    (mlookup sessions sid = some (SessRec.legacy u) → u ≠ 0 →
      (getUserIdFromSession sessions sid ttl now).1 = some u ∧
      mlookup (getUserIdFromSession sessions sid ttl now).2 sid =
        some (SessRec.record u (now + ttl) now)) ∧
    (mlookup sessions sid = some (SessRec.legacy 0) →
      getUserIdFromSession sessions sid ttl now = (none, sessions)) := by
  refine ⟨?_, ?_, ?_⟩
  · intro hrec
    unfold getUserIdFromSession getSessionRecord
    rw [hrec]
    constructor
    · intro hexp
      simp [hexp]
    · intro hexp
      simp only [hexp, if_false]
      exact ⟨trivial, mlookup_minsert_self _ _ _⟩
  · intro hrec hz
    unfold getUserIdFromSession getSessionRecord
    rw [hrec]
    dsimp only
    rw [if_neg hz]
    have hnoexp : ¬(now + ttl ≠ 0 ∧ now + ttl < now) := by omega
    simp only [hnoexp, if_false]
    exact ⟨trivial, mlookup_minsert_self _ _ _⟩
  · intro hrec
    unfold getUserIdFromSession getSessionRecord
    rw [hrec]
    rfl

/-- C8 witness: a record token with `expiresAt = 50 < now = 100` resolves
to null and is removed; one with `expiresAt = 500` resolves to account 7
and slides to `expiresAt = 1100`; a legacy bare-number token 7 resolves and
is upgraded with the slid expiry; the falsy legacy token 0 resolves to null
with the store untouched. -/
theorem C8_sliding_expiry_witness :
    getUserIdFromSession [("tok", SessRec.record 7 50 0)] "tok" 1000 100 =
      (none, merase [("tok", SessRec.record 7 50 0)] "tok") ∧
    (getUserIdFromSession [("tok", SessRec.record 7 500 0)] "tok" 1000 100).1 = some 7 ∧
    mlookup (getUserIdFromSession [("tok", SessRec.record 7 500 0)] "tok" 1000 100).2 "tok" =
      some (SessRec.record 7 1100 100) ∧
    (getUserIdFromSession [("tok", SessRec.legacy 7)] "tok" 1000 100).1 = some 7 ∧
    mlookup (getUserIdFromSession [("tok", SessRec.legacy 7)] "tok" 1000 100).2 "tok" =
      some (SessRec.record 7 1100 100) ∧
    getUserIdFromSession [("tok", SessRec.legacy 0)] "tok" 1000 100 =
      (none, [("tok", SessRec.legacy 0)]) := by
  have hval := ((C8_sliding_expiry [("tok", SessRec.record 7 500 0)] "tok" 7 500 0
    1000 100).1 rfl).2 (by omega)
  have hleg := (C8_sliding_expiry [("tok", SessRec.legacy 7)] "tok" 7 0 0
    1000 100).2.1 rfl (by omega)
  refine ⟨?_, hval.1, hval.2, hleg.1, hleg.2, ?_⟩
  · exact ((C8_sliding_expiry [("tok", SessRec.record 7 50 0)] "tok" 7 50 0 1000 100).1
      rfl).1 (by omega)
  · exact (C8_sliding_expiry [("tok", SessRec.legacy 0)] "tok" 0 0 0 1000 100).2.2 rfl

theorem mem_minsert {α β : Type} [DecidableEq α] (m : Map α β) (k : α) (v : β)
    (p : α × β) (h : p ∈ minsert m k v) : p = (k, v) ∨ p ∈ m := by
  induction m with
  | nil => simpa [minsert] using h
  | cons hd tl ih =>
    obtain ⟨k0, v0⟩ := hd
    by_cases h0 : k0 = k
    · simp only [minsert, if_pos h0, List.mem_cons] at h
      rcases h with h | h
      · exact Or.inl h
      · exact Or.inr (List.mem_cons_of_mem _ h)
    · simp only [minsert, if_neg h0, List.mem_cons] at h
      rcases h with h | h
      · exact Or.inr (h ▸ List.mem_cons_self _ _)
      · rcases ih h with h2 | h2
        · exact Or.inl h2
        · exact Or.inr (List.mem_cons_of_mem _ h2)

theorem updateTrophies_preserves_nonneg (st : ServerState) (sid cat : String) (ch : Int)
    (ttl now : Nat) (h : mockScoresNonneg st) :
    mockScoresNonneg (updateTrophiesStep st sid cat ch ttl now).1 := by
  unfold updateTrophiesStep
  split
  · exact h
  · simp only
    split
    · exact h
    · split
      · exact h
      · unfold mockScoresNonneg
        refine ⟨fun p hp => ?_, fun q hq => ?_⟩
        · rcases mem_minsert _ _ _ _ hp with h2 | h2
          · subst h2; simp [le_max_left]
          · exact h.1 p h2
        · rcases mem_minsert _ _ _ _ hq with h2 | h2
          · subst h2; simp [le_max_left]
          · exact h.2 q h2

theorem applyTrophyUpdates_preserves_nonneg (ttl : Nat) (reqs : List TrophyReq)
    (st : ServerState) (h : mockScoresNonneg st) :
    mockScoresNonneg (applyTrophyUpdates ttl reqs st) := by
  induction reqs generalizing st with
  | nil => exact h
  | cons r rest ih =>
    exact ih _ (updateTrophies_preserves_nonneg st r.sessionId r.category r.change ttl
      r.now h)

/-- C9: the trophy-update endpoint accepts only category "mock" with an
integer change in [-5, 5]; an accepted update stores `max 0 (old + change)`
(in both the user record and the mock ranking); a step preserves
non-negativity of all stored mock scores, hence so does any sequence of
updates. -/
theorem C9_trophy_update (st : ServerState) (sid cat : String) (ch : Int) (ttl now : Nat) :
    ((updateTrophiesStep st sid cat ch ttl now).2 = true →
        cat = "mock" ∧ -5 ≤ ch ∧ ch ≤ 5) ∧
    (∀ uid u, (getUserIdFromSession st.sessions sid ttl now).1 = some uid →
        mlookup st.users uid = some u →
        (updateTrophiesStep st sid cat ch ttl now).2 = true →
        mlookup (updateTrophiesStep st sid cat ch ttl now).1.users uid =
            some { u with mockTrophy := max 0 (u.mockTrophy + ch) } ∧
        mlookup (updateTrophiesStep st sid cat ch ttl now).1.rankingsMock uid =
            some (max 0 (u.mockTrophy + ch))) ∧
    (mockScoresNonneg st → mockScoresNonneg (updateTrophiesStep st sid cat ch ttl now).1) ∧
    (∀ reqs st0, mockScoresNonneg st0 → mockScoresNonneg (applyTrophyUpdates ttl reqs st0)) := by
  refine ⟨?_, ?_, updateTrophies_preserves_nonneg st sid cat ch ttl now,
    fun reqs st0 h => applyTrophyUpdates_preserves_nonneg ttl reqs st0 h⟩
  · intro hacc
    unfold updateTrophiesStep at hacc
    by_cases hv : (sid != "" && cat == "mock" && decide (-5 ≤ ch) && decide (ch ≤ 5)) = true
    · simp only [Bool.and_eq_true, bne_iff_ne, beq_iff_eq, decide_eq_true_eq] at hv
      exact ⟨hv.1.1.2, hv.1.2, hv.2⟩
    · rw [Bool.not_eq_true] at hv
      simp [hv] at hacc
  · intro uid u hres hud hacc
    unfold updateTrophiesStep at hacc ⊢
    by_cases hv : (sid != "" && cat == "mock" && decide (-5 ≤ ch) && decide (ch ≤ 5)) = true
    · simp only [hv, Bool.not_true, Bool.false_eq_true, if_false]
      simp only [hv, Bool.not_true, Bool.false_eq_true, if_false] at hacc
      rw [hres] at hacc ⊢
      simp only at hacc ⊢
      rw [show mlookup ({ st with sessions :=
            (getUserIdFromSession st.sessions sid ttl now).2 } : ServerState).users uid
          = mlookup st.users uid from rfl, hud] at hacc ⊢
      simp only
      exact ⟨mlookup_minsert_self _ _ _, mlookup_minsert_self _ _ _⟩
    · rw [Bool.not_eq_true] at hv
      simp [hv] at hacc

/-- C9 witness: in the concrete store (user 1 with mock trophy 3, a valid
session), the accepted change -5 yields stored score `max 0 (3 - 5) = 0`,
acceptance implies the validated category/bounds, and non-negativity holds
after the update. -/
theorem C9_trophy_update_witness :
    ("mock" = "mock" ∧ (-5 : Int) ≤ -5 ∧ (-5 : Int) ≤ 5) ∧
    mlookup (updateTrophiesStep stTrophy "tok" "mock" (-5) 1000 100).1.users 1 =
      some { mockTrophy := max 0 ((3 : Int) + -5), formalTrophy := 0 } ∧
    mlookup (updateTrophiesStep stTrophy "tok" "mock" (-5) 1000 100).1.rankingsMock 1 =
      some (max 0 ((3 : Int) + -5)) ∧
    mockScoresNonneg (updateTrophiesStep stTrophy "tok" "mock" (-5) 1000 100).1 := by
  have h := C9_trophy_update stTrophy "tok" "mock" (-5) 1000 100
  have h2 := h.2.1 1 { mockTrophy := 3, formalTrophy := 0 } (by rfl) (by rfl) (by rfl)
  exact ⟨h.1 (by rfl), h2.1, h2.2, h.2.2.1 (by decide)⟩

/-- C1: an outcome is committed — both players notified with the agreed
winner, ranking mutation invoked, game session plus pending outcome torn
down — exactly when the submitted claim passes the relay guard and winner
validation and, after recording, both players' recorded claims are present
and name the same winner (`commitsGameOver`); and once the session has been
torn down (its gameId no longer active), resubmitting a gameOver claim for
that game leaves the state unchanged and emits nothing, so the ranking
ledger is mutated at most once per game. -/
theorem C1_outcome_commit (st : ServerState) (s t w : Nat) (gs : Option Nat) :
    ((gameOverStep st s t w gs).2 ≠ [] ↔ commitsGameOver st s t w = true) ∧
    (commitsGameOver st s t w = true →
      ∀ gid, getGameIdOf st.playerSessions s = some gid →
        mlookup (gameOverStep st s t w gs).1.activeGames gid = none ∧
        mlookup (gameOverStep st s t w gs).1.pendingResults gid = none ∧
        ∃ oid, getOpponentSocketId st.activeGames gid s = some oid ∧
          (gameOverStep st s t w gs).2 =
            [Event.gameOverNotify oid s w, Event.gameOverNotify s oid w]) ∧
    (∀ gid, getGameIdOf st.playerSessions s = some gid →
        mlookup st.activeGames gid = none →
        gameOverStep st s t w gs = (st, [])) := by
  have hspec := gameOverStep_spec st s t w gs
  refine ⟨⟨?_, ?_⟩, hspec.2, fun gid h1 h2 =>
    gameOverStep_noop_of_inactive st s t w gs gid h1 h2⟩
  · intro hev
    cases hcom : commitsGameOver st s t w with
    | false => exact absurd (hspec.1 hcom) hev
    | true => rfl
  · intro hcom
    obtain ⟨gid, hgid⟩ := commitsGameOver_gid st s t w hcom
    obtain ⟨-, -, oid, -, hev⟩ := hspec.2 hcom gid hgid
    rw [hev]
    simp

/-- C1 witness: in the concrete state where player 2 already claimed winner
1, player 1's matching claim commits (events nonempty iff `commitsGameOver`,
which holds here), the session and pending outcome are gone afterwards; and
in the state where game "g" is already torn down, a resubmitted claim is a
no-op. -/
theorem C1_outcome_commit_witness :
    ((gameOverStep stGameClaimed 1 2 1 none).2 ≠ [] ↔
      commitsGameOver stGameClaimed 1 2 1 = true) ∧
    mlookup (gameOverStep stGameClaimed 1 2 1 none).1.activeGames "g" = none ∧
    mlookup (gameOverStep stGameClaimed 1 2 1 none).1.pendingResults "g" = none ∧
    gameOverStep stGameTornDown 1 2 1 none = (stGameTornDown, []) := by
  have h := C1_outcome_commit stGameClaimed 1 2 1 none
  have h2 := h.2.1 (by rfl) "g" (by rfl)
  exact ⟨h.1, h2.1, h2.2.1,
    (C1_outcome_commit stGameTornDown 1 2 1 none).2.2 "g" (by rfl) (by rfl)⟩

theorem storeMirrorAlways_activeGames (st : ServerState) (sid : Nat) (gs : Option Nat) :
    (storeMirrorAlways st sid gs).activeGames = st.activeGames := by
  unfold storeMirrorAlways
  split
  · split <;> rfl
  · rfl

theorem storeMirrorIfPresent_activeGames (st : ServerState) (sid : Nat) (gs : Option Nat) :
    (storeMirrorIfPresent st sid gs).activeGames = st.activeGames := by
  unfold storeMirrorIfPresent
  split
  · rfl
  · exact storeMirrorAlways_activeGames st sid _

/-- C7: the code-level behavior behind the claim.  No relayed game message
(gameState, cardPlayed, turnEnd) ever touches `activeGames` — in particular
none updates any session's `lastActivity`, which is set only at creation —
and concretely: in the two-player game created at time 0, a gameState
message is successfully relayed, the session's `lastActivity` is still 0
afterwards, and the 30-second sweep at time 301000 removes the session even
though it relayed a message moments before.  This contradicts the claim
(and spec §3/§4.3), which promise `lastActivityAt` is bumped on every
relayed game message so such a session is not reaped. -/
theorem C7_reap_ignores_relay :
    (∀ (st : ServerState) (s t : Nat) (gs : Option Nat),
        (gameStateStep st s t gs).1.activeGames = st.activeGames ∧
        (cardPlayedStep st s t gs).1.activeGames = st.activeGames ∧
        (turnEndStep st s t gs).1.activeGames = st.activeGames) ∧
    (gameStateStep stGame 1 2 (some 42)).2 = [Event.relayed "gameState" 2 1] ∧
    (mlookup (gameStateStep stGame 1 2 (some 42)).1.activeGames "g").map
      GameSession.lastActivity = some 0 ∧
    mlookup (reapIdleGames (gameStateStep stGame 1 2 (some 42)).1 301000).activeGames "g"
      = none := by
  refine ⟨fun st s t gs => ?_, by rfl, by rfl, by rfl⟩
  unfold gameStateStep cardPlayedStep turnEndStep
  by_cases hg : relayGuard st s t <;>
    simp [hg, storeMirrorAlways_activeGames, storeMirrorIfPresent_activeGames]

theorem contains_filter_ne (l : List Nat) (a s : Nat) (h : l.contains a = true)
    (hne : a ≠ s) : (l.filter (fun x => x != s)).contains a = true :=
  List.elem_iff.mpr (List.mem_filter.mpr ⟨List.elem_iff.mp h, by simp [hne]⟩)

/-- C4: if a player in an active game disconnects while both players of the
game are authenticated accounts and the opponent is still live, the
surviving peer is notified with `opponentDisconnected` carrying
`isDisconnectedAsLoser: true`, and the forfeit is scored exactly once: the
opponent's (winner's) formal trophy becomes `old + 2`, the disconnecting
side's `max 0 (old - 1)`, and the game session is torn down (so no later
gameOver can score it again). -/
theorem C4_disconnect_forfeit (st : ServerState) (s : Nat) (pi oi : PlayerInfo)
    (gid : String) (sess : GameSession) (op dp opw lsr : Player)
    (ou du : Nat) (uo ud : User)
    (hps : mlookup st.playerSessions s = some pi)
    (hgid : pi.gameId = some gid) (hgne : gid ≠ "")
    (hag : mlookup st.activeGames gid = some sess)
    (hop : sess.players.find? (fun p => p.id != s) = some op)
    (hdp : sess.players.find? (fun p => p.id == s) = some dp)
    (hlive : st.live.contains op.id = true) (hopne : op.id ≠ s)
    (hoi : mlookup st.playerSessions op.id = some oi)
    (hou : oi.userId = some ou) (houne : ou ≠ 0) (hog : oi.isGuest = false)
    (hdu : pi.userId = some du) (hdune : du ≠ 0) (hpg : pi.isGuest = false)
    (hfw : sess.players.find? (fun p => p.id == op.id) = some opw)
    (hfl : sess.players.find? (fun p => p.id != op.id) = some lsr)
    (hwid : opw.id = op.id) (hlid : lsr.id = s)
    (hgw : opw.isGuest = false) (hgl : lsr.isGuest = false)
    (huo : mlookup st.users ou = some uo) (hud2 : mlookup st.users du = some ud)
    (hneq : ou ≠ du) (hnn : 0 ≤ uo.formalTrophy) :
    (disconnectStep st s).2 = [Event.opponentDisconnected op.id gid dp.name true] ∧
    mlookup (disconnectStep st s).1.users ou =
      some { uo with formalTrophy := uo.formalTrophy + 2 } ∧
    mlookup (disconnectStep st s).1.users du =
      some { ud with formalTrophy := max 0 (ud.formalTrophy - 1) } ∧
    mlookup (disconnectStep st s).1.rankingsFormal ou = some (uo.formalTrophy + 2) ∧
    mlookup (disconnectStep st s).1.rankingsFormal du =
      some (max 0 (ud.formalTrophy - 1)) ∧
    mlookup (disconnectStep st s).1.activeGames gid = none := by
  have hlive2 : (st.live.filter (fun x => x != s)).contains op.id = true :=
    contains_filter_ne st.live op.id s hlive hopne
  have hg2 : getGameIdOf st.playerSessions s = some gid := by
    unfold getGameIdOf
    rw [hps]
    exact hgid
  have hcond : (truthyNat oi.userId && !oi.isGuest && truthyNat pi.userId && !pi.isGuest)
      = true := by
    rw [hou, hdu, hog, hpg]
    simp [truthyNat, houne, hdune]
  have hfin := (finalizeGameResult_spec
    { st with live := st.live.filter (fun x => x != s),
              waitingPlayers := st.waitingPlayers.filter (fun x => x != s) }
    gid op.id).2 sess lsr opw oi pi ou du uo ud hag hfl hfw hgw hgl (hwid ▸ hoi)
    (hlid ▸ hps) hou hdu hneq huo hud2 hnn
  unfold disconnectStep
  try dsimp only
  rw [hps]
  try dsimp only
  rw [hgid]
  try dsimp only
  rw [if_neg hgne, hag]
  try dsimp only
  rw [hop, hdp]
  try dsimp only
  unfold isPlayerConnected
  try dsimp only
  rw [hlive2]
  try dsimp only
  rw [hoi]
  try dsimp only
  rw [hcond]
  try dsimp only
  rw [if_pos rfl, hg2]
  try dsimp only
  rw [if_neg hgne]
  refine ⟨rfl, ?_, ?_, ?_, ?_, mlookup_merase_self _ _⟩
  · exact hfin.1
  · exact hfin.2.1
  · exact hfin.2.2.1
  · exact hfin.2.2.2.1

/-- C4 witness: in the concrete authenticated game (formal trophies 5 for
the disconnecting player 1's account and 3 for the survivor's), player 1's
disconnect notifies player 2 with `isDisconnectedAsLoser: true`, scores the
forfeit once (3 → 5 for the winner, 5 → 4 for the loser) and removes the
game. -/
theorem C4_disconnect_forfeit_witness :
    (disconnectStep stGame 1).2 =
      [Event.opponentDisconnected 2 "g" "Alice" true] ∧
    mlookup (disconnectStep stGame 1).1.users 20 =
      some { mockTrophy := 0, formalTrophy := 5 } ∧
    mlookup (disconnectStep stGame 1).1.users 10 =
      some { mockTrophy := 0, formalTrophy := 4 } ∧
    mlookup (disconnectStep stGame 1).1.rankingsFormal 20 = some 5 ∧
    mlookup (disconnectStep stGame 1).1.rankingsFormal 10 = some 4 ∧
    mlookup (disconnectStep stGame 1).1.activeGames "g" = none := by
  have h := C4_disconnect_forfeit stGame 1 (piG 1 2 10 false) (piG 2 1 20 false) "g"
    (gameG false) (plG 2 false false) (plG 1 true false) (plG 2 false false)
    (plG 1 true false) 20 10 { mockTrophy := 0, formalTrophy := 3 }
    { mockTrophy := 0, formalTrophy := 5 } rfl rfl (by decide) rfl rfl rfl rfl
    (by decide) rfl rfl (by decide) rfl rfl (by decide) rfl rfl rfl rfl rfl rfl rfl rfl
    rfl (by decide) (by decide)
  refine ⟨h.1, ?_, ?_, ?_, ?_, h.2.2.2.2.2⟩
  · rw [h.2.1]; rfl
  · rw [h.2.2.1]; rfl
  · rw [h.2.2.2.1]; rfl
  · rw [h.2.2.2.2.1]; rfl

end TCB
